import Mathlib

/-!
Verification development for `src/AnaFis/src-tauri/python/sympy_calls.py`.

The Python module delegates symbolic work to the sympy library.  The shallow
embedding below therefore models two layers:

* the repository's own code (`_get_math_functions`, `_preprocess_formula`,
  `calculate_symbolic_data`, `generate_latex_data`), translated line by line;
* the fragment of sympy's behaviour that this code exercises: expression
  construction with sympy's automatic evaluation, `diff`, `subs`,
  `free_symbols`, `evalf`/`float`, `str`/`latex` printing, and the exception
  types raised by `parse_expr` / `sympify` (sympy's `parse_expr` raises
  `tokenize.TokenError` or `SyntaxError` on malformed input; only `sympify`
  wraps those into `SympifyError`, and `SympifyError` derives `ValueError`).

Machine reals (Python floats / sympy Floats) are modelled as exact rationals;
the numeric inputs and tolerance comparisons in the statements below only use
values on which floating-point rounding plays no role.
-/

namespace Anafis

/-- Complex numeric value with rational components: the model of a fully
reduced sympy number (the result of `evalf` on a constant expression). -/
structure CC where
  re : ℚ
  im : ℚ
deriving DecidableEq, Repr

/-- Tolerance 1e-10 from line 126 of sympy_calls.py. -/
def tol : ℚ := 1 / 10000000000

/-- Value of `float(sp.pi.evalf())`: the double nearest to π. -/
def piFloat : ℚ := 3.141592653589793

/-- Value of `float(sp.E.evalf())`: the double nearest to Euler's number. -/
def eFloat : ℚ := 2.718281828459045

/-- Names of the sympy operators bound in `_get_math_functions` (lines 12-79).
Aliases are not distinct constructors: "sen" and "sin" denote the same sympy
object `sp.sin`, "ln" is the same object as `sp.log`, so both map to the same
constructor here. -/
inductive LibFn
  | sin | cos | tan | cot | sec | csc
  | asin | acos | atan | acot | asec | acsc
  | sinh | cosh | tanh | coth | sech | csch
  | asinh | acosh | atanh | acoth | asech | acsch
  | log | exp | expPolar
  | erf | erfc | gammaFn | betaFn | zetaFn
  | besselj | bessely | besseli | besselk
  | sinc | digammaFn | lambertW
  | ynm | assocLegendre | hermiteFn | ellipticE | ellipticK
deriving DecidableEq, Repr

/-- Symbolic expression tree: the model of a sympy expression.  `num` covers
Integer/Rational/Float literals (floats as exact rationals); `piK`, `eK`, `iK`
are the constants `sp.pi`, `sp.E`, `sp.I`; `fn1`-`fn4` are applications of the
library operators; `dUnk e v` stands for sympy's unevaluated derivative
`Derivative(e, v)`, used for the operators whose closed-form derivative rules
this model does not spell out (no claim evaluates them). -/
inductive SExpr
  | num (q : ℚ)
  | sym (name : String)
  | piK | eK | iK
  | add (a b : SExpr)
  | mul (a b : SExpr)
  | pow (a b : SExpr)
  | fn1 (f : LibFn) (a : SExpr)
  | fn2 (f : LibFn) (a b : SExpr)
  | fn3 (f : LibFn) (a b c : SExpr)
  | fn4 (f : LibFn) (a b c d : SExpr)
  | dUnk (e : SExpr) (v : String)
deriving DecidableEq, Repr

namespace SExpr

/-- Addition with sympy's automatic evaluation on the fragment the code
exercises: numeric literals fold, a zero summand disappears. -/
def sAdd (a b : SExpr) : SExpr :=
  match a, b with
  | num x, num y => num (x + y)
  | num x, b => if x = 0 then b else add (num x) b
  | a, num y => if y = 0 then a else add a (num y)
  | a, b => add a b

/-- Multiplication with sympy's automatic evaluation: numeric literals fold,
factors 1 and 0 collapse. -/
def sMul (a b : SExpr) : SExpr :=
  match a, b with
  | num x, num y => num (x * y)
  | num x, b => if x = 0 then num 0 else if x = 1 then b else mul (num x) b
  | a, num y => if y = 0 then num 0 else if y = 1 then a else mul a (num y)
  | a, b => mul a b

/-- Integer power of a rational, with `none` on division by zero (sympy
produces `zoo` there, which `float` later rejects). -/
def qIntPow (q : ℚ) : Int → Option ℚ
  | Int.ofNat n => some (q ^ n)
  | Int.negSucc n => if q = 0 then none else some ((q ^ (n + 1))⁻¹)

/-- Power with sympy's automatic evaluation on the exercised fragment:
exponents 0 and 1 collapse, a base 1 collapses, numeric base with integer
numeric exponent folds, 0 to a positive rational power folds to 0. -/
def sPow (a b : SExpr) : SExpr :=
  match a, b with
  | num x, num y =>
      if y = 0 then num 1
      else if y = 1 then num x
      else if x = 0 then (if 0 < y then num 0 else pow (num 0) (num y))
      else if y.den = 1 then
        match qIntPow x y.num with
        | some r => num r
        | none => pow (num x) (num y)
      else pow (num x) (num y)
  | a, num y => if y = 0 then num 1 else if y = 1 then a else pow a (num y)
  | num x, b => if x = 1 then num 1 else pow (num x) b
  | a, b => pow a b

/-- Free symbols of an expression, as the list of symbol names occurring in
it (the model of sympy's `free_symbols`; only emptiness and membership are
ever inspected). -/
def freeSyms : SExpr → List String
  | num _ | piK | eK | iK => []
  | sym s => [s]
  | add a b | mul a b | pow a b => freeSyms a ++ freeSyms b
  | fn1 _ a => freeSyms a
  | fn2 _ a b => freeSyms a ++ freeSyms b
  | fn3 _ a b c => freeSyms a ++ freeSyms b ++ freeSyms c
  | fn4 _ a b c d => freeSyms a ++ freeSyms b ++ freeSyms c ++ freeSyms d
  | dUnk e _ => freeSyms e

end SExpr

/-- Canonical printed name of each library operator, as sympy's printers
emit it (aliases print under their canonical name: `str(sp.sin(x))` is
"sin(x)" however the input spelt it). -/
def libName : LibFn → String
  | .sin => "sin" | .cos => "cos" | .tan => "tan"
  | .cot => "cot" | .sec => "sec" | .csc => "csc"
  | .asin => "asin" | .acos => "acos" | .atan => "atan"
  | .acot => "acot" | .asec => "asec" | .acsc => "acsc"
  | .sinh => "sinh" | .cosh => "cosh" | .tanh => "tanh"
  | .coth => "coth" | .sech => "sech" | .csch => "csch"
  | .asinh => "asinh" | .acosh => "acosh" | .atanh => "atanh"
  | .acoth => "acoth" | .asech => "asech" | .acsch => "acsch"
  | .log => "log" | .exp => "exp" | .expPolar => "exp_polar"
  | .erf => "erf" | .erfc => "erfc"
  | .gammaFn => "gamma" | .betaFn => "beta" | .zetaFn => "zeta"
  | .besselj => "besselj" | .bessely => "bessely"
  | .besseli => "besseli" | .besselk => "besselk"
  | .sinc => "sinc" | .digammaFn => "digamma" | .lambertW => "LambertW"
  | .ynm => "Ynm" | .assocLegendre => "assoc_legendre"
  | .hermiteFn => "hermite"
  | .ellipticE => "elliptic_e" | .ellipticK => "elliptic_k"

namespace SExpr

/-- Closed-form derivative of the unary operators that the claims exercise
(other operators fall back to an unevaluated `dUnk` node in `sdiff`);
each rule is sympy's. -/
def d1Known (f : LibFn) (a : SExpr) : Option SExpr :=
  match f with
  | .sin => some (fn1 .cos a)
  | .cos => some (sMul (num (-1)) (fn1 .sin a))
  | .tan => some (sAdd (sPow (fn1 .tan a) (num 2)) (num 1))
  | .exp => some (fn1 .exp a)
  | .log => some (sPow a (num (-1)))
  | _ => none

/-- Model of `sp.diff(e, sp.Symbol v)`: linearity, product rule and the
general power rule (`diff(a**b) = b*a**(b-1)*a' + a**b*log(a)*b'`, whose
second summand sympy's automatic evaluation removes when `b` is constant);
an expression free of `v` differentiates to 0; operators without a spelled
out rule yield the unevaluated `dUnk` node. -/
def sdiff (e : SExpr) (v : String) : SExpr :=
  match e with
  | num _ | piK | eK | iK => num 0
  | sym s => if s = v then num 1 else num 0
  | add a b => sAdd (sdiff a v) (sdiff b v)
  | mul a b => sAdd (sMul (sdiff a v) b) (sMul a (sdiff b v))
  | pow a b =>
      sAdd (sMul (sMul b (sPow a (sAdd b (num (-1))))) (sdiff a v))
           (sMul (sMul (sPow a b) (fn1 .log a)) (sdiff b v))
  | fn1 f a =>
      if (freeSyms (fn1 f a)).contains v then
        match d1Known f a with
        | some d => sMul d (sdiff a v)
        | none => dUnk (fn1 f a) v
      else num 0
  | fn2 f a b =>
      if (freeSyms (fn2 f a b)).contains v then dUnk (fn2 f a b) v else num 0
  | fn3 f a b c =>
      if (freeSyms (fn3 f a b c)).contains v then dUnk (fn3 f a b c) v
      else num 0
  | fn4 f a b c d =>
      if (freeSyms (fn4 f a b c d)).contains v then dUnk (fn4 f a b c d) v
      else num 0
  | dUnk e' w =>
      if (freeSyms e').contains v then dUnk (dUnk e' w) v else num 0

/-- Model of `e.subs(bindings)` for a mapping from symbol names to numbers:
each bound symbol is replaced by its numeric literal and the tree is rebuilt
through the evaluating constructors, exactly as sympy re-evaluates on
substitution. -/
def subsVals (e : SExpr) (σ : List (String × ℚ)) : SExpr :=
  match e with
  | num q => num q
  | sym s => match σ.lookup s with | some q => num q | none => sym s
  | piK => piK
  | eK => eK
  | iK => iK
  | add a b => sAdd (subsVals a σ) (subsVals b σ)
  | mul a b => sMul (subsVals a σ) (subsVals b σ)
  | pow a b => sPow (subsVals a σ) (subsVals b σ)
  | fn1 f a => fn1 f (subsVals a σ)
  | fn2 f a b => fn2 f (subsVals a σ) (subsVals b σ)
  | fn3 f a b c => fn3 f (subsVals a σ) (subsVals b σ) (subsVals c σ)
  | fn4 f a b c d =>
      fn4 f (subsVals a σ) (subsVals b σ) (subsVals c σ) (subsVals d σ)
  | dUnk e' v => dUnk (subsVals e' σ) v

end SExpr

/-- Complex addition on rational pairs. -/
def cAdd (x y : CC) : CC := ⟨x.re + y.re, x.im + y.im⟩

/-- Complex multiplication on rational pairs. -/
def cMul (x y : CC) : CC :=
  ⟨x.re * y.re - x.im * y.im, x.re * y.im + x.im * y.re⟩

/-- Complex inverse; `none` at zero (sympy's `zoo`, which `float` rejects). -/
def cInv (x : CC) : Option CC :=
  let d := x.re * x.re + x.im * x.im
  if d = 0 then none else some ⟨x.re / d, -x.im / d⟩

/-- Complex natural power by iterated multiplication. -/
def cNatPow (x : CC) : Nat → CC
  | 0 => ⟨1, 0⟩
  | n + 1 => cMul (cNatPow x n) x

/-- Complex integer power; `none` when inverting zero. -/
def cIntPow (x : CC) : Int → Option CC
  | Int.ofNat n => some (cNatPow x n)
  | Int.negSucc n => cInv (cNatPow x (n + 1))

/-- Model of `e.evalf()` followed by reading the result as a number: reduces
a closed arithmetic expression over literals and the constants π, E, I to a
complex rational, and returns `none` when the expression does not reduce to
a number this model can represent (symbols left, transcendental function
values, `zoo`); the callers treat `none` exactly as Python's `float()` /
truth-value tests treat a non-numeric sympy object, namely as a raised
`TypeError`. -/
def evalfC : SExpr → Option CC
  | .num q => some ⟨q, 0⟩
  | .piK => some ⟨piFloat, 0⟩
  | .eK => some ⟨eFloat, 0⟩
  | .iK => some ⟨0, 1⟩
  | .add a b =>
      match evalfC a, evalfC b with
      | some x, some y => some (cAdd x y)
      | _, _ => none
  | .mul a b =>
      match evalfC a, evalfC b with
      | some x, some y => some (cMul x y)
      | _, _ => none
  | .pow a b =>
      match evalfC a, evalfC b with
      | some x, some y =>
          if y.im = 0 ∧ y.re.den = 1 then cIntPow x y.re.num else none
      | _, _ => none
  | _ => none

/-- Printed form of a rational literal, as sympy's `StrPrinter` writes
Integer and Rational atoms ("2", "-1", "1/2"). -/
def numStr (q : ℚ) : String :=
  if q.den = 1 then toString q.num
  else toString q.num ++ "/" ++ toString q.den

/-- Syntactic precedence used by the printer: 1 for sums, 2 for products
(and fractional literals), 3 for powers, 5 for atoms; negative literals get
the precedence of a sum so that they are parenthesised inside products and
powers, as sympy does. -/
def nodePrec : SExpr → Nat
  | .num q => if q.num < 0 then 1 else if q.den = 1 then 5 else 2
  | .add _ _ => 1
  | .mul _ _ => 2
  | .pow _ _ => 3
  | _ => 5

/-- Model of sympy's `str` printer on the fragment of expressions the
repository's results expose (integers, symbols, the named constants, sums,
products, powers — with `Pow(e, 1/2)` printed as `sqrt(e)` — and library
operator applications).  Python-level division and subtraction nodes never
reach this printer, because the parser already stores them as `Mul`/`Add`
with negative powers and coefficients. -/
def sstrP (ctx : Nat) (e : SExpr) : String :=
  let body :=
    match e with
    | .num q => numStr q
    | .sym s => s
    | .piK => "pi"
    | .eK => "E"
    | .iK => "I"
    | .add a b => sstrP 1 a ++ " + " ++ sstrP 1 b
    | .mul a b => sstrP 2 a ++ "*" ++ sstrP 2 b
    | .pow a b =>
        if b = .num (1/2) then "sqrt(" ++ sstrP 0 a ++ ")"
        else sstrP 4 a ++ "**" ++ sstrP 3 b
    | .fn1 f a => libName f ++ "(" ++ sstrP 0 a ++ ")"
    | .fn2 f a b => libName f ++ "(" ++ sstrP 0 a ++ ", " ++ sstrP 0 b ++ ")"
    | .fn3 f a b c =>
        libName f ++ "(" ++ sstrP 0 a ++ ", " ++ sstrP 0 b ++ ", "
          ++ sstrP 0 c ++ ")"
    | .fn4 f a b c d =>
        libName f ++ "(" ++ sstrP 0 a ++ ", " ++ sstrP 0 b ++ ", "
          ++ sstrP 0 c ++ ", " ++ sstrP 0 d ++ ")"
    | .dUnk e' v => "Derivative(" ++ sstrP 0 e' ++ ", " ++ v ++ ")"
  let wrap : Bool :=
    match e with
    | .pow _ b => if b = .num (1/2) then false else decide (nodePrec e < ctx)
    | _ => decide (nodePrec e < ctx)
  if wrap then "(" ++ body ++ ")" else body

/-- Model of `str(e)` for a sympy expression. -/
def sstr (e : SExpr) : String := sstrP 0 e

/-- Printed form of a symbol name in the latex printer: a name with an
underscore becomes a subscripted name, and a leading σ becomes `\sigma`, as
sympy renders the generated uncertainty symbols. -/
def latexSym (s : String) : String :=
  let core :=
    match s.splitOn "_" with
    | [base, sub] => base ++ "_\x7b" ++ sub ++ "\x7d"
    | _ => s
  (core.replace "σ" "\\sigma")

/-- Model of sympy's `latex(e, mul_symbol="dot")` on the fragment the
repository renders; the synthesis claim only inspects this rendering for
non-emptiness, so the printer covers structure, not sympy's full layout
rules. -/
def latexStr (e : SExpr) : String :=
  match e with
  | .num q =>
      if q.den = 1 then toString q.num
      else "\\frac\x7b" ++ toString q.num ++ "\x7d\x7b" ++ toString q.den
        ++ "\x7d"
  | .sym s => latexSym s
  | .piK => "\\pi"
  | .eK => "e"
  | .iK => "i"
  | .add a b => latexStr a ++ " + " ++ latexStr b
  | .mul a b => latexStr a ++ " \\cdot " ++ latexStr b
  | .pow a b =>
      if b = .num (1/2) then "\\sqrt\x7b" ++ latexStr a ++ "\x7d"
      else "\\left(" ++ latexStr a ++ "\\right)^\x7b" ++ latexStr b ++ "\x7d"
  | .fn1 f a => "\\" ++ libName f ++ "\\left(" ++ latexStr a ++ "\\right)"
  | .fn2 f a b =>
      "\\" ++ libName f ++ "\\left(" ++ latexStr a ++ ", " ++ latexStr b
        ++ "\\right)"
  | .fn3 f a b c =>
      "\\" ++ libName f ++ "\\left(" ++ latexStr a ++ ", " ++ latexStr b
        ++ ", " ++ latexStr c ++ "\\right)"
  | .fn4 f a b c d =>
      "\\" ++ libName f ++ "\\left(" ++ latexStr a ++ ", " ++ latexStr b
        ++ ", " ++ latexStr c ++ ", " ++ latexStr d ++ "\\right)"
  | .dUnk e' v =>
      "\\frac\x7bd\x7d\x7bd " ++ v ++ "\x7d " ++ latexStr e'

/-- Python exception value, carrying the exception's `str()` payload.  The
constructors record the concrete class, because `calculate_symbolic_data`
dispatches on it: `sympy.SympifyError` (a `ValueError` subclass, caught by
the first handler), plain `ValueError` (second handler), and then the
classes that only the final `except Exception` catches: `tokenize.TokenError`
and `SyntaxError` raised by `parse_expr` on malformed input, `TypeError`
from `float()`/relational truth tests, `IndexError` from list indexing and
`KeyError` from dict lookup. -/
inductive PyExn
  | sympifyError (msg : String)
  | valueError (msg : String)
  | tokenError (msg : String)
  | synError (msg : String)
  | typeError (msg : String)
  | indexError (msg : String)
  | keyError (msg : String)
deriving DecidableEq, Repr

/-- Payload string of the exception, Python's `str(e)`. -/
def PyExn.detail : PyExn → String
  | .sympifyError m | .valueError m | .tokenError m | .synError m
  | .typeError m | .indexError m | .keyError m => m

/-- Entry of the `_get_math_functions` dictionary: either a callable (the
sympy functions and the lambdas, modelled as a Lean function from the
argument list, raising `TypeError` on an arity or argument-class mismatch
exactly where the Python object would) or a constant expression. -/
inductive LibEntry
  | call (c : List SExpr → Except PyExn SExpr)
  | cst (e : SExpr)

/-- Unary sympy function as a dictionary entry. -/
def un1 (f : LibFn) : LibEntry :=
  .call fun args =>
    match args with
    | [a] => .ok (.fn1 f a)
    | _ => .error (.typeError "invalid number of arguments")

/-- Binary sympy function as a dictionary entry. -/
def bin2 (f : LibFn) : LibEntry :=
  .call fun args =>
    match args with
    | [a, b] => .ok (.fn2 f a b)
    | _ => .error (.typeError "invalid number of arguments")

/-- Entry for `sp.log`: one argument gives the natural logarithm, two
arguments give `log(x)/log(base)`, which is how sympy expands `log(x, b)`. -/
def logEntry : LibEntry :=
  .call fun args =>
    match args with
    | [a] => .ok (.fn1 .log a)
    | [a, b] =>
        .ok (SExpr.sMul (.fn1 .log a) (SExpr.sPow (.fn1 .log b) (.num (-1))))
    | _ => .error (.typeError "invalid number of arguments")

/-- Entry for the lambda `lambda x: sp.log(x, base)` (lines 41-42). -/
def logBaseEntry (base : ℚ) : LibEntry :=
  .call fun args =>
    match args with
    | [a] =>
        .ok (SExpr.sMul (.fn1 .log a)
          (SExpr.sPow (.fn1 .log (.num base)) (.num (-1))))
    | _ => .error (.typeError "invalid number of arguments")

/-- Entry for the lambda `lambda x: x ** sp.Rational(1, 3)` (line 49). -/
def cbrtEntry : LibEntry :=
  .call fun args =>
    match args with
    | [a] => .ok (SExpr.sPow a (.num (1/3)))
    | _ => .error (.typeError "invalid number of arguments")

/-- Entry for the lambda `lambda x, n: x ** sp.Rational(1, n)` (line 50);
`sp.Rational(1, n)` needs a non-zero numeric `n`, anything else raises
`TypeError`. -/
def rootEntry : LibEntry :=
  .call fun args =>
    match args with
    | [a, .num n] =>
        if n = 0 then .error (.typeError "division by zero in Rational")
        else .ok (SExpr.sPow a (.num n⁻¹))
    | _ => .error (.typeError "invalid arguments")

/-- Entry for `sp.Ynm` (four arguments). -/
def ynmEntry : LibEntry :=
  .call fun args =>
    match args with
    | [a, b, c, d] => .ok (.fn4 .ynm a b c d)
    | _ => .error (.typeError "invalid number of arguments")

/-- Entry for `sp.assoc_legendre` (three arguments). -/
def assocLegendreEntry : LibEntry :=
  .call fun args =>
    match args with
    | [a, b, c] => .ok (.fn3 .assocLegendre a b c)
    | _ => .error (.typeError "invalid number of arguments")

/-- Model of `_get_math_functions()` (lines 10-79): the dictionary in the
source's order.  "sen" maps to the same entry value as "sin" (`sp.sen` does
not exist; line 15 binds the alias to the object `sp.sin`), "ln" to the same
object as natural `log`, "e"/"E" both to `sp.E`, and "I"/"j" both to
`sp.I`. -/
def mathFunctionsTable : List (String × LibEntry) :=
  [ ("sin", un1 .sin), ("sen", un1 .sin),
    ("cos", un1 .cos), ("tan", un1 .tan),
    ("cot", un1 .cot), ("sec", un1 .sec), ("csc", un1 .csc),
    ("asin", un1 .asin), ("acos", un1 .acos), ("atan", un1 .atan),
    ("acot", un1 .acot), ("asec", un1 .asec), ("acsc", un1 .acsc),
    ("sinh", un1 .sinh), ("cosh", un1 .cosh), ("tanh", un1 .tanh),
    ("coth", un1 .coth), ("sech", un1 .sech), ("csch", un1 .csch),
    ("asinh", un1 .asinh), ("acosh", un1 .acosh), ("atanh", un1 .atanh),
    ("acoth", un1 .acoth), ("asech", un1 .asech), ("acsch", un1 .acsch),
    ("log", logEntry),
    ("log10", logBaseEntry 10),
    ("log2", logBaseEntry 2),
    ("ln", logEntry),
    ("exp", un1 .exp), ("exp_polar", un1 .expPolar),
    ("sqrt", .call fun args =>
      match args with
      | [a] => .ok (SExpr.sPow a (.num (1/2)))
      | _ => .error (.typeError "invalid number of arguments")),
    ("cbrt", cbrtEntry),
    ("root", rootEntry),
    ("erf", un1 .erf), ("erfc", un1 .erfc),
    ("gamma", un1 .gammaFn), ("beta", bin2 .betaFn), ("zeta", un1 .zetaFn),
    ("besselj", bin2 .besselj), ("bessely", bin2 .bessely),
    ("besseli", bin2 .besseli), ("besselk", bin2 .besselk),
    ("sinc", un1 .sinc), ("digamma", un1 .digammaFn),
    ("LambertW", un1 .lambertW),
    ("Ynm", ynmEntry), ("assoc_legendre", assocLegendreEntry),
    ("hermite", bin2 .hermiteFn),
    ("elliptic_e", un1 .ellipticE), ("elliptic_k", un1 .ellipticK),
    ("pi", .cst .piK),
    ("e", .cst .eK), ("E", .cst .eK),
    ("I", .cst .iK), ("j", .cst .iK) ]

/-- Name resolution of `combined_locals = \x7b**symbols, **math_functions\x7d`
(line 88) plus sympy's `auto_symbol` transformation: because the
`math_functions` entries are merged second, they override a declared
variable of the same name; any other name — declared variable or not —
resolves to `sp.Symbol(name)` (`auto_symbol` creates symbols for unknown
names instead of failing).  The two final branches are kept separate to
record that the declared-variable list cannot influence the result; sympy's
`global_dict` (the full sympy namespace consulted after `local_dict`) is not
modelled, since no claim uses a name that only it would resolve. -/
def combinedLookup (vars : List String) (name : String) : LibEntry :=
  match mathFunctionsTable.lookup name with
  | some entry => entry
  | none =>
      if vars.contains name then .cst (.sym name)
      else .cst (.sym name)

/-- Decidable equality of `Except` values, used to evaluate the model on
concrete inputs inside proofs. -/
instance {ε α : Type} [DecidableEq ε] [DecidableEq α] :
    DecidableEq (Except ε α) :=
  fun a b =>
    match a, b with
    | .ok x, .ok y =>
        if h : x = y then .isTrue (by rw [h]) else .isFalse (by simp [h])
    | .error x, .error y =>
        if h : x = y then .isTrue (by rw [h]) else .isFalse (by simp [h])
    | .ok _, .error _ => .isFalse (by simp)
    | .error _, .ok _ => .isFalse (by simp)

/-- Token of the formula language, as Python's `tokenize` module produces
them: numeric literals, names, and operator/punctuation strings. -/
inductive Tok
  | tnum (q : ℚ)
  | tname (s : String)
  | top (s : String)
deriving DecidableEq, Repr

/-- Numeric value of a digit run. -/
def digitsToNat (cs : List Char) : Nat :=
  cs.foldl (fun acc c => acc * 10 + (c.toNat - '0'.toNat)) 0

/-- Value of a literal with integer part `ip` and fractional digits `fp`
(`auto_number` turns "2" into `Integer(2)` and "2.5" into a float, which
this model keeps exact). -/
def mkNum (ip fp : List Char) : ℚ :=
  (digitsToNat ip : ℚ) + (digitsToNat fp : ℚ) / ((10 : ℚ) ^ fp.length)

/-- First character of a Python identifier (ASCII fragment). -/
def isNameStart (c : Char) : Bool := c.isAlpha || c = '_'

/-- Later character of a Python identifier (ASCII fragment). -/
def isNameChar (c : Char) : Bool := c.isAlpha || c = '_' || c.isDigit

/-- Model of Python's `tokenize.generate_tokens` on one logical line, the
way `stringify_expr` drives it: whitespace is skipped, digit runs (with an
optional fractional part) become number tokens, identifier runs become name
tokens, and the operators the grammar knows become operator tokens.  An
unterminated parenthesis leaves the tokenizer inside a multi-line statement
at end of input, where `generate_tokens` raises `tokenize.TokenError` — not
a `SympifyError` — which `parse_expr` does not catch.  A character outside
the token alphabet becomes an error token that the subsequent `eval` rejects
as a `SyntaxError`; this model raises the `SyntaxError` directly. -/
def tokenizeAux : Nat → List Char → Nat → List Tok → Except PyExn (List Tok)
  | 0, _, _, _ => .error (.synError "tokenizer fuel exhausted")
  | _ + 1, [], depth, acc =>
      if depth > 0 then .error (.tokenError "EOF in multi-line statement")
      else .ok acc.reverse
  | fuel + 1, c :: rest, depth, acc =>
      if c = ' ' || c = '\t' then tokenizeAux fuel rest depth acc
      else if c.isDigit then
        let ip := (c :: rest).takeWhile Char.isDigit
        let rest1 := (c :: rest).dropWhile Char.isDigit
        match rest1 with
        | '.' :: rest2 =>
            let fp := rest2.takeWhile Char.isDigit
            let rest3 := rest2.dropWhile Char.isDigit
            tokenizeAux fuel rest3 depth (.tnum (mkNum ip fp) :: acc)
        | _ => tokenizeAux fuel rest1 depth (.tnum (mkNum ip []) :: acc)
      else if isNameStart c then
        let nm := (c :: rest).takeWhile isNameChar
        tokenizeAux fuel ((c :: rest).dropWhile isNameChar) depth
          (.tname (String.mk nm) :: acc)
      else if c = '(' then tokenizeAux fuel rest (depth + 1) (.top "(" :: acc)
      else if c = ')' then tokenizeAux fuel rest (depth - 1) (.top ")" :: acc)
      else if c = '*' then
        match rest with
        | '*' :: rest2 => tokenizeAux fuel rest2 depth (.top "**" :: acc)
        | _ => tokenizeAux fuel rest depth (.top "*" :: acc)
      else if c = '+' || c = '-' || c = '/' || c = ',' then
        tokenizeAux fuel rest depth (.top (String.mk [c]) :: acc)
      else .error (.synError "invalid syntax")

/-- Tokenization of a formula string. -/
def tokenize (s : String) : Except PyExn (List Tok) :=
  tokenizeAux (s.length + 1) s.data 0 []

mutual

/-- Sums: `a + b` and `a - b`, the latter stored as `a + (-1)*b` exactly as
Python's evaluation of sympy operands produces it. -/
def parseSum (fuel : Nat) (vars : List String) (im : Bool) (ts : List Tok) :
    Except PyExn (SExpr × List Tok) :=
  match fuel with
  | 0 => .error (.synError "recursion limit")
  | fuel + 1 =>
      match parseMul fuel vars im ts with
      | .error e => .error e
      | .ok (a, ts1) => parseSumLoop fuel vars im a ts1

/-- Iterated additive operators. -/
def parseSumLoop (fuel : Nat) (vars : List String) (im : Bool) (a : SExpr)
    (ts : List Tok) : Except PyExn (SExpr × List Tok) :=
  match fuel with
  | 0 => .error (.synError "recursion limit")
  | fuel + 1 =>
      match ts with
      | .top "+" :: rest =>
          match parseMul fuel vars im rest with
          | .error e => .error e
          | .ok (b, ts1) => parseSumLoop fuel vars im (SExpr.sAdd a b) ts1
      | .top "-" :: rest =>
          match parseMul fuel vars im rest with
          | .error e => .error e
          | .ok (b, ts1) =>
              parseSumLoop fuel vars im
                (SExpr.sAdd a (SExpr.sMul (.num (-1)) b)) ts1
      | _ => .ok (a, ts)

/-- Products: `a * b`, `a / b` (stored as `a * b**(-1)`, sympy's form), and
— when `im` is set, modelling the `implicit_multiplication` transformation —
a following name or opening parenthesis without an operator in between,
which sympy turns into an inserted `*`. -/
def parseMul (fuel : Nat) (vars : List String) (im : Bool) (ts : List Tok) :
    Except PyExn (SExpr × List Tok) :=
  match fuel with
  | 0 => .error (.synError "recursion limit")
  | fuel + 1 =>
      match parseUn fuel vars im ts with
      | .error e => .error e
      | .ok (a, ts1) => parseMulLoop fuel vars im a ts1

/-- Iterated multiplicative operators, with the implicit-multiplication
insertion points of sympy's `_implicit_multiplication`: every insertion the
transformation makes happens before a name or an opening parenthesis (never
before a bare number, so "x 2" stays a syntax error there and here). -/
def parseMulLoop (fuel : Nat) (vars : List String) (im : Bool) (a : SExpr)
    (ts : List Tok) : Except PyExn (SExpr × List Tok) :=
  match fuel with
  | 0 => .error (.synError "recursion limit")
  | fuel + 1 =>
      match ts with
      | .top "*" :: rest =>
          match parseUn fuel vars im rest with
          | .error e => .error e
          | .ok (b, ts1) => parseMulLoop fuel vars im (SExpr.sMul a b) ts1
      | .top "/" :: rest =>
          match parseUn fuel vars im rest with
          | .error e => .error e
          | .ok (b, ts1) =>
              parseMulLoop fuel vars im
                (SExpr.sMul a (SExpr.sPow b (.num (-1)))) ts1
      | .tname _ :: _ =>
          if im then
            match parseUn fuel vars im ts with
            | .error e => .error e
            | .ok (b, ts1) => parseMulLoop fuel vars im (SExpr.sMul a b) ts1
          else .ok (a, ts)
      | .top "(" :: _ =>
          if im then
            match parseUn fuel vars im ts with
            | .error e => .error e
            | .ok (b, ts1) => parseMulLoop fuel vars im (SExpr.sMul a b) ts1
          else .ok (a, ts)
      | _ => .ok (a, ts)

/-- Unary signs, as Python's `eval` applies them to sympy operands. -/
def parseUn (fuel : Nat) (vars : List String) (im : Bool) (ts : List Tok) :
    Except PyExn (SExpr × List Tok) :=
  match fuel with
  | 0 => .error (.synError "recursion limit")
  | fuel + 1 =>
      match ts with
      | .top "-" :: rest =>
          match parseUn fuel vars im rest with
          | .error e => .error e
          | .ok (b, ts1) => .ok (SExpr.sMul (.num (-1)) b, ts1)
      | .top "+" :: rest => parseUn fuel vars im rest
      | _ => parsePw fuel vars im ts

/-- Powers, right associative with a possibly signed exponent, matching
Python's `**`. -/
def parsePw (fuel : Nat) (vars : List String) (im : Bool) (ts : List Tok) :
    Except PyExn (SExpr × List Tok) :=
  match fuel with
  | 0 => .error (.synError "recursion limit")
  | fuel + 1 =>
      match parseAtom fuel vars im ts with
      | .error e => .error e
      | .ok (a, ts1) =>
          match ts1 with
          | .top "**" :: rest =>
              match parseUn fuel vars im rest with
              | .error e => .error e
              | .ok (b, ts2) => .ok (SExpr.sPow a b, ts2)
          | _ => .ok (a, ts1)

/-- Atoms: literals, parenthesised sums, and names resolved through
`combined_locals`.  A constant or symbol entry just stands there (a
following parenthesis then triggers implicit multiplication, matching the
non-callable-name rule of the transformation); a callable entry must be
applied — to an explicit argument list, or (with `im`, modelling
`_implicit_application`) to the following factor; a bare unapplied callable
is not a sympy expression and surfaces as a `TypeError` downstream. -/
def parseAtom (fuel : Nat) (vars : List String) (im : Bool) (ts : List Tok) :
    Except PyExn (SExpr × List Tok) :=
  match fuel with
  | 0 => .error (.synError "recursion limit")
  | fuel + 1 =>
      match ts with
      | .tnum q :: rest => .ok (.num q, rest)
      | .top "(" :: rest =>
          match parseSum fuel vars im rest with
          | .error e => .error e
          | .ok (e, ts1) =>
              match ts1 with
              | .top ")" :: ts2 => .ok (e, ts2)
              | _ => .error (.synError "invalid syntax")
      | .tname s :: rest =>
          match combinedLookup vars s with
          | .cst e => .ok (e, rest)
          | .call c =>
              match rest with
              | .top "(" :: rest2 =>
                  match parseArgs fuel vars im rest2 with
                  | .error e => .error e
                  | .ok (args, ts1) =>
                      match c args with
                      | .ok e => .ok (e, ts1)
                      | .error err => .error err
              | .tname _ :: _ =>
                  if im then
                    match parseUn fuel vars im rest with
                    | .error e => .error e
                    | .ok (b, ts1) =>
                        match c [b] with
                        | .ok e => .ok (e, ts1)
                        | .error err => .error err
                  else .error (.synError "invalid syntax")
              | .tnum _ :: _ =>
                  if im then
                    match parseUn fuel vars im rest with
                    | .error e => .error e
                    | .ok (b, ts1) =>
                        match c [b] with
                        | .ok e => .ok (e, ts1)
                        | .error err => .error err
                  else .error (.synError "invalid syntax")
              | _ => .error (.typeError "unapplied function object")
      | _ => .error (.synError "invalid syntax")

/-- Comma separated argument list of a call, up to the closing
parenthesis. -/
def parseArgs (fuel : Nat) (vars : List String) (im : Bool) (ts : List Tok) :
    Except PyExn (List SExpr × List Tok) :=
  match fuel with
  | 0 => .error (.synError "recursion limit")
  | fuel + 1 =>
      match ts with
      | .top ")" :: rest => .ok ([], rest)
      | _ =>
          match parseSum fuel vars im ts with
          | .error e => .error e
          | .ok (e, ts1) =>
              match ts1 with
              | .top "," :: rest =>
                  match parseArgs fuel vars im rest with
                  | .error err => .error err
                  | .ok (es, ts2) => .ok (e :: es, ts2)
              | .top ")" :: rest => .ok ([e], rest)
              | _ => .error (.synError "invalid syntax")

end

/-- Full parse of a token list: one expression consuming every token
(leftover tokens are what `eval` rejects as a `SyntaxError`).  The fuel is
an upper bound on the recursion depth of the descent, amply above what the
token count admits. -/
def runParse (vars : List String) (im : Bool) (ts : List Tok) :
    Except PyExn SExpr :=
  match parseSum (10 * ts.length + 10) vars im ts with
  | .error e => .error e
  | .ok (e, []) => .ok e
  | .ok (_, _ :: _) => .error (.synError "invalid syntax")

/-- Model of `_preprocess_formula` (lines 82-95): build the symbol table,
merge it under the function library, and parse with the standard
transformations extended by implicit multiplication.  Exceptions escape
exactly as `parse_expr` lets them escape: `TokenError` and `SyntaxError`
uncaught, never converted to `SympifyError`. -/
def preprocessFormula (formula : String) (vars : List String) :
    Except PyExn SExpr :=
  match tokenize formula with
  | .error e => .error e
  | .ok ts => runParse vars true ts

/-- Model of `sp.sympify` applied to a printed expression string (line 124):
parsing with the standard transformations only (no implicit multiplication,
no caller symbol table — the names resolve against sympy's own namespace,
which agrees with the function library on every name a printed derivative
can contain), and with `TokenError`/`SyntaxError` wrapped into
`SympifyError`, which is what distinguishes `sympify` from a raw
`parse_expr` call. -/
def sympifyStr (s : String) : Except PyExn SExpr :=
  match tokenize s with
  | .error (.tokenError m) => .error (.sympifyError m)
  | .error (.synError m) => .error (.sympifyError m)
  | .error e => .error e
  | .ok ts =>
      match runParse [] false ts with
      | .error (.tokenError m) => .error (.sympifyError m)
      | .error (.synError m) => .error (.sympifyError m)
      | r => r

/-- Category-tagged error message of the derivative/numeric result: the
three `except` branches of `calculate_symbolic_data` prefix the exception's
payload with "Invalid formula syntax: ", "Evaluation error: " and
"Unexpected error: " respectively; the constructor records the category and
the payload. -/
inductive ErrMsg
  | invalidSyntax (detail : String)
  | evalError (detail : String)
  | unexpected (detail : String)
deriving DecidableEq, Repr

/-- Full user-visible message, with the prefix each handler writes. -/
def ErrMsg.render : ErrMsg → String
  | .invalidSyntax d => "Invalid formula syntax: " ++ d
  | .evalError d => "Evaluation error: " ++ d
  | .unexpected d => "Unexpected error: " ++ d

/-- Result shape of `calculate_symbolic_data`; mappings are modelled as
association lists with the dictionary's key uniqueness maintained by
`dictSet`. -/
structure SymbolicResult where
  expression : String
  derivatives : List (String × String)
  numerical_value : ℚ
  numerical_derivatives : List (String × ℚ)
  success : Bool
  error : Option ErrMsg
deriving DecidableEq, Repr

/-- Dictionary update: replace the value at an existing key in place, or
append a fresh key, matching Python dict assignment. -/
def dictSet {α : Type} (d : List (String × α)) (k : String) (v : α) :
    List (String × α) :=
  match d with
  | [] => [(k, v)]
  | (k', v') :: rest =>
      if k' = k then (k, v) :: rest else (k', v') :: dictSet rest k v

/-- Payload of the `ValueError` raised at lines 115-118. -/
def missingVarsMsg : String :=
  "Expression could not be fully evaluated: missing variables?"

/-- Payload of the `ValueError` raised at lines 127-130, naming the
offending variable. -/
def imagMsg (var : String) : String :=
  "Derivative with respect to " ++ var ++
    " has a significant imaginary part."

/-- Payload of the `IndexError` raised by `values[i]` past the end. -/
def indexMsg : String := "list index out of range"

/-- Payload used for the `TypeError` of `float()` on a non-real value and of
a truth test on a non-numeric comparison; the category, not the text, is
what the dispatch observes. -/
def floatMsg : String := "Cannot convert expression to float"

/-- Model of the derivatives dictionary built at lines 106-109: one entry
per declared variable, holding `str(sp.diff(expr, sp.Symbol(var)))`. -/
def buildDerivs (expr : SExpr) (vars : List String) :
    List (String × String) :=
  vars.foldl (fun d var => dictSet d var (sstr (SExpr.sdiff expr var))) []

/-- Model of `value_subs = \x7bvar: values[i] for i, var in
enumerate(variables)\x7d` (line 112): the comprehension walks the variables
and indexes into `values`, raising `IndexError` at the first missing
index. -/
def buildValueSubsAux (values : List ℚ) (acc : List (String × ℚ)) (i : Nat) :
    List String → Except PyExn (List (String × ℚ))
  | [] => .ok acc
  | var :: rest =>
      match values[i]? with
      | some q => buildValueSubsAux values (dictSet acc var q) (i + 1) rest
      | none => .error (.indexError indexMsg)

/-- Substitution dictionary of the call, or the `IndexError` the
comprehension raises. -/
def buildValueSubs (vars : List String) (values : List ℚ) :
    Except PyExn (List (String × ℚ)) :=
  buildValueSubsAux values [] 0 vars

/-- Numeric value of one variable's derivative as the loop at lines 122-131
computes it: look the printed derivative up, re-parse it with `sympify`,
substitute and reduce.  `none` collapses every non-numeric outcome (the
loop raises a specific exception there; this projection is only used to
state properties). -/
def derivCVal (derivStrs : List (String × String)) (σ : List (String × ℚ))
    (var : String) : Option CC :=
  match derivStrs.lookup var with
  | none => none
  | some s =>
      match sympifyStr s with
      | .error _ => none
      | .ok d => evalfC (SExpr.subsVals d σ)

/-- Model of the loop at lines 122-132: for each variable re-parse its
printed derivative, substitute the values, reduce, reject a significant
imaginary part (`> 1e-10`) with a `ValueError` naming the variable, and
record the real component.  A non-numeric reduction makes the comparison on
line 126 raise a `TypeError`; a missing dictionary key would raise
`KeyError` (unreachable, since the same loop built the dictionary). -/
def derivNumLoop (derivStrs : List (String × String)) (σ : List (String × ℚ))
    (acc : List (String × ℚ)) : List String →
    Except PyExn (List (String × ℚ))
  | [] => .ok acc
  | var :: rest =>
      match derivStrs.lookup var with
      | none => .error (.keyError var)
      | some s =>
          match sympifyStr s with
          | .error e => .error e
          | .ok d =>
              match evalfC (SExpr.subsVals d σ) with
              | none => .error (.typeError floatMsg)
              | some c =>
                  if |c.im| > tol then .error (.valueError (imagMsg var))
                  else derivNumLoop derivStrs σ (dictSet acc var c.re) rest

/-- Payload of the success branch of `calculate_symbolic_data` before the
result dictionary is assembled. -/
structure CalcOk where
  exprStr : String
  derivs : List (String × String)
  nval : ℚ
  nderivs : List (String × ℚ)
deriving DecidableEq, Repr

/-- Evaluation stage of `calculate_symbolic_data` (lines 113-132) given the
parsed expression, the derivatives dictionary and the substitution
dictionary: the free-symbols check with its `ValueError`, the reduction and
`float()` of the main value (a `TypeError` when the value is not a real
number), and the derivative loop. -/
def calcEval (expr : SExpr) (derivs : List (String × String)) (vars : List String)
    (vsubs : List (String × ℚ)) : Except PyExn CalcOk :=
  if SExpr.freeSyms (SExpr.subsVals expr vsubs) = [] then
    match evalfC (SExpr.subsVals expr vsubs) with
    | none => .error (.typeError floatMsg)
    | some c =>
        if c.im = 0 then
          match derivNumLoop derivs vsubs [] vars with
          | .error e => .error e
          | .ok nd => .ok ⟨sstr expr, derivs, c.re, nd⟩
        else .error (.typeError floatMsg)
  else .error (.valueError missingVarsMsg)

/-- Body of the `try` block of `calculate_symbolic_data` (lines 102-140):
parse, build the derivatives dictionary (lines 106-109, exception-free in
this model since `sdiff` and `sstr` are total), build the substitution
dictionary, then evaluate. -/
def calcCore (formula : String) (vars : List String) (values : List ℚ) :
    Except PyExn CalcOk :=
  match preprocessFormula formula vars with
  | .error e => .error e
  | .ok expr =>
      match buildValueSubs vars values with
      | .error e => .error e
      | .ok vsubs => calcEval expr (buildDerivs expr vars) vars vsubs

/-- Failure dictionary shared by the three `except` branches (lines
141-167): the `expression` field echoes the input formula, the numeric and
mapping fields are zero and empty, `success` is false. -/
def failResult (formula : String) (msg : ErrMsg) : SymbolicResult :=
  { expression := formula, derivatives := [], numerical_value := 0,
    numerical_derivatives := [], success := false, error := some msg }

/-- Dispatch of a raised exception over the three handlers, in source
order: `except sp.SympifyError` first (line 141), `except ValueError`
second (line 150), `except Exception` last (line 159). -/
def excToMsg : PyExn → ErrMsg
  | .sympifyError m => .invalidSyntax m
  | .valueError m => .evalError m
  | .tokenError m => .unexpected m
  | .synError m => .unexpected m
  | .typeError m => .unexpected m
  | .indexError m => .unexpected m
  | .keyError m => .unexpected m

/-- Model of `calculate_symbolic_data(formula, variables, values)`
(lines 98-167). -/
def calculate_symbolic_data (formula : String) (vars : List String)
    (values : List ℚ) : SymbolicResult :=
  match calcCore formula vars values with
  | .ok d =>
      { expression := d.exprStr, derivatives := d.derivs,
        numerical_value := d.nval, numerical_derivatives := d.nderivs,
        success := true, error := none }
  | .error e => failResult formula (excToMsg e)

/-- Result shape of `generate_latex_data`; the `string` field carries the
plain rendering, `latex` the typeset one, and `error` the raw `str(e)` of
the caught exception. -/
structure LatexResult where
  string : String
  latex : String
  success : Bool
  error : Option String
deriving DecidableEq, Repr

/-- Body of the `try` block of `generate_latex_data` (lines 174-205): parse,
then for each variable square the product of its partial derivative with
the generated uncertainty symbol `σ_<var>`, sum the squares (Python's `sum`
folds from 0 on the left), take the square root, and render. -/
def genCore (formula : String) (vars : List String) :
    Except PyExn (String × String) :=
  match preprocessFormula formula vars with
  | .error e => .error e
  | .ok expr =>
      let terms := vars.map fun var =>
        SExpr.sPow (SExpr.sMul (SExpr.sdiff expr var) (.sym ("σ_" ++ var)))
          (.num 2)
      let usum := terms.foldl SExpr.sAdd (.num 0)
      let uex := SExpr.sPow usum (.num (1/2))
      .ok (sstr uex, latexStr uex)

/-- Model of `generate_latex_data(formula, variables)` (lines 170-213): a
single generic handler catches every exception and resets both renderings
to the empty string. -/
def generate_latex_data (formula : String) (vars : List String) :
    LatexResult :=
  match genCore formula vars with
  | .ok (s, l) => { string := s, latex := l, success := true, error := none }
  | .error e =>
      { string := "", latex := "", success := false,
        error := some e.detail }

/-- Membership in the key list after a dictionary update. -/
theorem mem_keys_dictSet {α : Type} (d : List (String × α)) (k a : String)
    (v : α) :
    a ∈ (dictSet d k v).map Prod.fst ↔ a = k ∨ a ∈ d.map Prod.fst := by
  induction d with
  | nil => simp [dictSet]
  | cons p rest ih =>
      obtain ⟨pk, pv⟩ := p
      by_cases hpk : pk = k
      · subst hpk
        simp [dictSet]
        try tauto
      · simp [dictSet, hpk, ih]
        try tauto

/-- Lookup of the updated key. -/
theorem lookup_dictSet_self {α : Type} (d : List (String × α)) (k : String)
    (v : α) : (dictSet d k v).lookup k = some v := by
  induction d with
  | nil => simp [dictSet, List.lookup_cons]
  | cons p rest ih =>
      obtain ⟨pk, pv⟩ := p
      by_cases hpk : pk = k
      · subst hpk
        simp [dictSet, List.lookup_cons]
      · simp [dictSet, hpk, List.lookup_cons, ih,
          beq_false_of_ne (Ne.symm hpk)]

/-- Lookup of a different key after a dictionary update. -/
theorem lookup_dictSet_ne {α : Type} (d : List (String × α)) (k a : String)
    (v : α) (h : a ≠ k) : (dictSet d k v).lookup a = d.lookup a := by
  induction d with
  | nil => simp [dictSet, List.lookup_cons, beq_false_of_ne h]
  | cons p rest ih =>
      obtain ⟨pk, pv⟩ := p
      by_cases hpk : pk = k
      · subst hpk
        simp [dictSet, List.lookup_cons, beq_false_of_ne h]
      · simp [dictSet, hpk, List.lookup_cons, ih]

/-- Key membership across the fold that builds the derivatives
dictionary. -/
theorem mem_keys_buildDerivs_fold (g : String → String) (a : String) :
    ∀ (l : List String) (d : List (String × String)),
      a ∈ ((l.foldl (fun d var => dictSet d var (g var)) d).map Prod.fst) ↔
        a ∈ d.map Prod.fst ∨ a ∈ l := by
  intro l
  induction l with
  | nil => simp
  | cons w rest ih =>
      intro d
      simp only [List.foldl_cons, ih, mem_keys_dictSet, List.mem_cons]
      tauto

/-- Keys of the derivatives dictionary are exactly the declared
variables. -/
theorem mem_keys_buildDerivs (expr : SExpr) (vars : List String)
    (a : String) :
    a ∈ (buildDerivs expr vars).map Prod.fst ↔ a ∈ vars := by
  unfold buildDerivs
  rw [mem_keys_buildDerivs_fold (fun var => sstr (SExpr.sdiff expr var)) a
    vars []]
  simp

/-- Destructuring of a numeric derivative value into the stages the loop
performs. -/
theorem derivCVal_elim (ds : List (String × String)) (σ : List (String × ℚ))
    (w : String) (c : CC) (h : derivCVal ds σ w = some c) :
    ∃ s d, ds.lookup w = some s ∧ sympifyStr s = .ok d ∧
      evalfC (SExpr.subsVals d σ) = some c := by
  unfold derivCVal at h
  cases hl : ds.lookup w with
  | none => simp [hl] at h
  | some s =>
      simp only [hl] at h
      cases hy : sympifyStr s with
      | error e => simp [hy] at h
      | ok d => simp only [hy] at h; exact ⟨s, d, rfl, hy, h⟩

/-- When every variable's derivative reduces to a number and some
variable's value violates the tolerance, the loop raises the `ValueError`
naming a violating variable. -/
theorem derivNumLoop_bad (ds : List (String × String))
    (σ : List (String × ℚ)) :
    ∀ (l : List String) (acc : List (String × ℚ)),
      (∀ w ∈ l, (derivCVal ds σ w).isSome = true) →
      (∃ v ∈ l, ∃ c, derivCVal ds σ v = some c ∧ |c.im| > tol) →
      ∃ w cw, w ∈ l ∧ derivCVal ds σ w = some cw ∧ |cw.im| > tol ∧
        derivNumLoop ds σ acc l = .error (.valueError (imagMsg w)) := by
  intro l
  induction l with
  | nil => intro acc _ hbad; simp at hbad
  | cons w rest ih =>
      intro acc hall hbad
      have hw : (derivCVal ds σ w).isSome = true := hall w (by simp)
      obtain ⟨cw, hcw⟩ := Option.isSome_iff_exists.mp hw
      obtain ⟨s, d, hl, hy, hev⟩ := derivCVal_elim ds σ w cw hcw
      by_cases hwb : |cw.im| > tol
      · refine ⟨w, cw, by simp, hcw, hwb, ?_⟩
        unfold derivNumLoop
        simp only [hl, hy, hev]
        rw [if_pos hwb]
      · obtain ⟨v, hv, c, hc, hcb⟩ := hbad
        have hvr : v ∈ rest := by
          rcases List.mem_cons.mp hv with hveq | hvr
          · subst hveq
            rw [hcw] at hc
            cases hc
            exact absurd hcb hwb
          · exact hvr
        obtain ⟨w', cw', hw', hcw', hcb', hloop⟩ :=
          ih (dictSet acc w cw.re) (fun u hu => hall u (by simp [hu]))
            ⟨v, hvr, c, hc, hcb⟩
        refine ⟨w', cw', by simp [hw'], hcw', hcb', ?_⟩
        unfold derivNumLoop
        simp only [hl, hy, hev]
        rw [if_neg hwb]
        exact hloop

/-- When the loop succeeds, each variable's recorded numeric derivative is
the real component of its reduced value, and keys outside the variable list
keep their accumulated value. -/
theorem derivNumLoop_ok_lookup (ds : List (String × String))
    (σ : List (String × ℚ)) :
    ∀ (l : List String) (acc nd : List (String × ℚ)),
      derivNumLoop ds σ acc l = .ok nd →
      ∀ (v : String) (c : CC), derivCVal ds σ v = some c →
        (v ∈ l → nd.lookup v = some c.re) ∧
        (v ∉ l → nd.lookup v = acc.lookup v) := by
  intro l
  induction l with
  | nil =>
      intro acc nd h v c _
      unfold derivNumLoop at h
      cases h
      exact ⟨fun hv => absurd hv (by simp), fun _ => rfl⟩
  | cons w rest ih =>
      intro acc nd h v c hc
      unfold derivNumLoop at h
      cases hl : ds.lookup w with
      | none => simp [hl] at h
      | some s =>
          simp only [hl] at h
          cases hy : sympifyStr s with
          | error e => simp [hy] at h
          | ok d =>
              simp only [hy] at h
              cases hev : evalfC (SExpr.subsVals d σ) with
              | none => simp [hev] at h
              | some cw =>
                  simp only [hev] at h
                  by_cases hwb : |cw.im| > tol
                  · rw [if_pos hwb] at h; exact absurd h (by simp)
                  · rw [if_neg hwb] at h
                    have hcw : derivCVal ds σ w = some cw := by
                      unfold derivCVal
                      simp only [hl, hy, hev]
                    have ihh := ih (dictSet acc w cw.re) nd h v c hc
                    constructor
                    · intro hv
                      rcases List.mem_cons.mp hv with hveq | hvr
                      · subst hveq
                        by_cases hvrest : v ∈ rest
                        · exact ihh.1 hvrest
                        · rw [ihh.2 hvrest]
                          rw [hcw] at hc
                          cases hc
                          exact lookup_dictSet_self acc v c.re
                      · exact ihh.1 hvr
                    · intro hv
                      have hvw : v ≠ w := fun he => hv (by simp [he])
                      have hvr : v ∉ rest := fun hr => hv (by simp [hr])
                      rw [ihh.2 hvr]
                      exact lookup_dictSet_ne acc w v cw.re hvw

/-- Reduction of `calcCore` to its derivative loop once parsing, the
substitution dictionary, the free-symbols check and the main numeric value
have gone through. -/
theorem calcCore_at_loop (f : String) (vars : List String) (vals : List ℚ)
    (expr : SExpr) (vsubs : List (String × ℚ)) (c0 : CC)
    (hp : preprocessFormula f vars = .ok expr)
    (hs : buildValueSubs vars vals = .ok vsubs)
    (hfree : SExpr.freeSyms (SExpr.subsVals expr vsubs) = [])
    (hev : evalfC (SExpr.subsVals expr vsubs) = some c0)
    (him : c0.im = 0) :
    calcCore f vars vals =
      match derivNumLoop (buildDerivs expr vars) vsubs [] vars with
      | .error e => .error e
      | .ok nd => .ok ⟨sstr expr, buildDerivs expr vars, c0.re, nd⟩ := by
  unfold calcCore
  simp only [hp, hs]
  unfold calcEval
  rw [if_pos hfree]
  simp only [hev]
  rw [if_pos him]

/-- Success record of `calculate_symbolic_data` assembled from the outcome
of each stage. -/
theorem calc_ok_assemble (f : String) (vars : List String) (vals : List ℚ)
    (expr : SExpr) (vsubs : List (String × ℚ)) (c0 : CC)
    (nd : List (String × ℚ))
    (hp : preprocessFormula f vars = .ok expr)
    (hs : buildValueSubs vars vals = .ok vsubs)
    (hfree : SExpr.freeSyms (SExpr.subsVals expr vsubs) = [])
    (hev : evalfC (SExpr.subsVals expr vsubs) = some c0)
    (him : c0.im = 0)
    (hloop : derivNumLoop (buildDerivs expr vars) vsubs [] vars = .ok nd) :
    calculate_symbolic_data f vars vals =
      { expression := sstr expr, derivatives := buildDerivs expr vars,
        numerical_value := c0.re, numerical_derivatives := nd,
        success := true, error := none } := by
  unfold calculate_symbolic_data
  rw [calcCore_at_loop f vars vals expr vsubs c0 hp hs hfree hev him]
  simp only [hloop]

/-- Failure record of `calculate_symbolic_data` from a raised exception. -/
theorem calc_err_assemble (f : String) (vars : List String) (vals : List ℚ)
    (e : PyExn) (h : calcCore f vars vals = .error e) :
    calculate_symbolic_data f vars vals = failResult f (excToMsg e) := by
  unfold calculate_symbolic_data
  rw [h]

/-- Exceptions escaping `parse_expr` abort `calcCore` unchanged. -/
theorem calcCore_err_parse (f : String) (vars : List String) (vals : List ℚ)
    (e : PyExn) (hp : preprocessFormula f vars = .error e) :
    calcCore f vars vals = .error e := by
  unfold calcCore
  rw [hp]

/-- An `IndexError` from the substitution comprehension aborts
`calcCore`. -/
theorem calcCore_err_subs (f : String) (vars : List String) (vals : List ℚ)
    (expr : SExpr) (e : PyExn) (hp : preprocessFormula f vars = .ok expr)
    (hs : buildValueSubs vars vals = .error e) :
    calcCore f vars vals = .error e := by
  unfold calcCore
  simp only [hp, hs]

/-- Free symbols surviving the substitution raise the missing-variables
`ValueError`. -/
theorem calcCore_err_free (f : String) (vars : List String) (vals : List ℚ)
    (expr : SExpr) (vsubs : List (String × ℚ))
    (hp : preprocessFormula f vars = .ok expr)
    (hs : buildValueSubs vars vals = .ok vsubs)
    (hfree : SExpr.freeSyms (SExpr.subsVals expr vsubs) ≠ []) :
    calcCore f vars vals = .error (.valueError missingVarsMsg) := by
  unfold calcCore
  simp only [hp, hs]
  unfold calcEval
  rw [if_neg hfree]

/-- An exception in the derivative loop aborts `calcCore` unchanged. -/
theorem calcCore_err_loop (f : String) (vars : List String) (vals : List ℚ)
    (expr : SExpr) (vsubs : List (String × ℚ)) (c0 : CC) (e : PyExn)
    (hp : preprocessFormula f vars = .ok expr)
    (hs : buildValueSubs vars vals = .ok vsubs)
    (hfree : SExpr.freeSyms (SExpr.subsVals expr vsubs) = [])
    (hev : evalfC (SExpr.subsVals expr vsubs) = some c0)
    (him : c0.im = 0)
    (hloop : derivNumLoop (buildDerivs expr vars) vsubs [] vars = .error e) :
    calcCore f vars vals = .error e := by
  rw [calcCore_at_loop f vars vals expr vsubs c0 hp hs hfree hev him]
  simp only [hloop]

/-- Derivatives field of a successful evaluation stage. -/
theorem calcEval_ok_derivs (expr : SExpr) (ds : List (String × String))
    (vars : List String) (vsubs : List (String × ℚ)) (d : CalcOk)
    (h : calcEval expr ds vars vsubs = .ok d) : d.derivs = ds := by
  unfold calcEval at h
  by_cases hfree : SExpr.freeSyms (SExpr.subsVals expr vsubs) = []
  · rw [if_pos hfree] at h
    cases hev : evalfC (SExpr.subsVals expr vsubs) with
    | none => simp [hev] at h
    | some c =>
        simp only [hev] at h
        by_cases him : c.im = 0
        · rw [if_pos him] at h
          cases hloop : derivNumLoop ds vsubs [] vars with
          | error e => simp [hloop] at h
          | ok nd =>
              simp only [hloop] at h
              cases h
              rfl
        · rw [if_neg him] at h
          exact absurd h (by simp)
  · rw [if_neg hfree] at h
    exact absurd h (by simp)

/-- A successful `calcCore` run parsed the formula and returned the
derivatives dictionary built from the parsed expression. -/
theorem calcCore_ok_derivs (f : String) (vars : List String) (vals : List ℚ)
    (d : CalcOk) (h : calcCore f vars vals = .ok d) :
    ∃ expr, preprocessFormula f vars = .ok expr ∧
      d.derivs = buildDerivs expr vars := by
  unfold calcCore at h
  cases hp : preprocessFormula f vars with
  | error e => simp [hp] at h
  | ok expr =>
      simp only [hp] at h
      cases hs : buildValueSubs vars vals with
      | error e => simp [hs] at h
      | ok vsubs =>
          simp only [hs] at h
          exact ⟨expr, rfl, calcEval_ok_derivs expr _ vars vsubs d h⟩

/-- Too few values make the substitution comprehension raise its
`IndexError`: auxiliary form, running from index `i`. -/
theorem buildValueSubsAux_short (values : List ℚ) :
    ∀ (l : List String) (i : Nat) (acc : List (String × ℚ)),
      l ≠ [] → values.length < i + l.length →
      buildValueSubsAux values acc i l = .error (.indexError indexMsg) := by
  intro l
  induction l with
  | nil => intro i acc hne _; exact absurd rfl hne
  | cons w rest ih =>
      intro i acc _ hlen
      unfold buildValueSubsAux
      cases hv : values[i]? with
      | none => simp only [hv]
      | some q =>
          simp only [hv]
          have hi : i < values.length := by
            by_contra hge
            rw [List.getElem?_eq_none (by omega)] at hv
            cases hv
          cases rest with
          | nil => simp at hlen; omega
          | cons r rs =>
              exact ih (i + 1) (dictSet acc w q) (by simp)
                (by simp at hlen ⊢; omega)

/-- Too few values make `buildValueSubs` raise its `IndexError`. -/
theorem buildValueSubs_short (vars : List String) (vals : List ℚ)
    (h : vals.length < vars.length) :
    buildValueSubs vars vals = .error (.indexError indexMsg) := by
  unfold buildValueSubs
  apply buildValueSubsAux_short
  · intro hnil
    rw [hnil] at h
    simp at h
  · simpa using h

/-- Success record of `generate_latex_data` from its core. -/
theorem gen_ok_assemble (f : String) (vars : List String) (s l : String)
    (h : genCore f vars = .ok (s, l)) :
    generate_latex_data f vars =
      { string := s, latex := l, success := true, error := none } := by
  unfold generate_latex_data
  rw [h]

/-- Full result of the variable-shadowing probe: declaring a variable
named "pi" and evaluating the formula "pi". -/
theorem calcPi_eval :
    calculate_symbolic_data "pi" ["pi"] [3] =
      { expression := "pi", derivatives := [("pi", "0")],
        numerical_value := piFloat, numerical_derivatives := [("pi", 0)],
        success := true, error := none } := by
  rw [calc_ok_assemble "pi" ["pi"] [3] .piK [("pi", 3)] ⟨piFloat, 0⟩
    [("pi", 0)] (by with_unfolding_all decide) (by with_unfolding_all decide)
    rfl rfl rfl (by with_unfolding_all decide)]
  simp only [SymbolicResult.mk.injEq, and_true, true_and]
  exact ⟨by with_unfolding_all decide, by with_unfolding_all decide⟩

/-- Full result of the missing-variable probe "w+q" with only "w"
declared. -/
theorem calcWq_eval :
    calculate_symbolic_data "w+q" ["w"] [2] =
      failResult "w+q" (.evalError missingVarsMsg) :=
  calc_err_assemble "w+q" ["w"] [2] (.valueError missingVarsMsg)
    (calcCore_err_free "w+q" ["w"] [2] (.add (.sym "w") (.sym "q"))
      [("w", 2)] (by with_unfolding_all decide) (by with_unfolding_all decide)
      (by with_unfolding_all decide))

/-- Full result of "x+y" over both variables, the success probe shared by
the key-set claims. -/
theorem calcXY_eval :
    calculate_symbolic_data "x+y" ["x", "y"] [1, 2] =
      { expression := "x + y", derivatives := [("x", "1"), ("y", "1")],
        numerical_value := 3, numerical_derivatives := [("x", 1), ("y", 1)],
        success := true, error := none } := by
  rw [calc_ok_assemble "x+y" ["x", "y"] [1, 2]
    (.add (.sym "x") (.sym "y")) [("x", 1), ("y", 2)] ⟨3, 0⟩
    [("x", 1), ("y", 1)] (by with_unfolding_all decide)
    (by with_unfolding_all decide) (by with_unfolding_all decide)
    (by with_unfolding_all decide) rfl (by with_unfolding_all decide)]
  simp only [SymbolicResult.mk.injEq, and_true, true_and]
  exact ⟨by with_unfolding_all decide, by with_unfolding_all decide⟩

/-- Claim C1, counterexample.  The claim says a declared variable shadows a
library name of the same name, so that parsing "pi" with declared variable
"pi" yields the caller's Symbol and the derivative of "pi" with respect to
"pi" is 1.  On the code the merge `\x7b**symbols, **math_functions\x7d`
puts the library second, so the library constant wins: the formula parses
to the constant π, not the Symbol, and the recorded derivative is "0", not
"1". -/
theorem c1_counterexample :
    preprocessFormula "pi" ["pi"] = .ok SExpr.piK ∧
    SExpr.piK ≠ SExpr.sym "pi" ∧
    (calculate_symbolic_data "pi" ["pi"] [3]).derivatives = [("pi", "0")] ∧
    (calculate_symbolic_data "pi" ["pi"] [3]).derivatives ≠ [("pi", "1")] := by
  refine ⟨by with_unfolding_all decide, by decide, ?_, ?_⟩
  · rw [calcPi_eval]
  · rw [calcPi_eval]
    decide

/-- Claim C1, amended.  On a name collision the Function Library takes
precedence over the declared variable (`math_functions` is merged second):
declaring a variable "pi" leaves the name bound to the constant π, the
call succeeds, the partial derivative of the formula "pi" with respect to
the declared variable "pi" is 0, and the numerical value is the float of
π. -/
theorem c1_library_shadows_variable :
    calculate_symbolic_data "pi" ["pi"] [3] =
      { expression := "pi", derivatives := [("pi", "0")],
        numerical_value := piFloat, numerical_derivatives := [("pi", 0)],
        success := true, error := none } :=
  calcPi_eval

/-- Claim C2, counterexample.  The claim says every failing call resets the
"expression" field to the empty string; on the code the failure branches
set it to the input formula, so any failing call with a non-empty formula
refutes it. -/
theorem c2_counterexample :
    (calculate_symbolic_data "w+q" ["w"] [2]).success = false ∧
    (calculate_symbolic_data "w+q" ["w"] [2]).expression = "w+q" ∧
    (calculate_symbolic_data "w+q" ["w"] [2]).expression ≠ "" := by
  rw [calcWq_eval]
  exact ⟨rfl, rfl, by decide⟩

/-- Claim C2, amended.  On every failing call the numeric and mapping
fields are reset to neutral defaults (zero and empty mappings) and the
"expression" field carries the input formula string (not the empty
string). -/
theorem c2_failure_fields_reset (f : String) (vars : List String)
    (vals : List ℚ)
    (h : (calculate_symbolic_data f vars vals).success = false) :
    (calculate_symbolic_data f vars vals).expression = f ∧
    (calculate_symbolic_data f vars vals).numerical_value = 0 ∧
    (calculate_symbolic_data f vars vals).derivatives = [] ∧
    (calculate_symbolic_data f vars vals).numerical_derivatives = [] := by
  unfold calculate_symbolic_data at h ⊢
  cases hc : calcCore f vars vals with
  | ok d => rw [hc] at h; simp at h
  | error e => exact ⟨rfl, rfl, rfl, rfl⟩

/-- Claim C2, witness for the amended statement at a concrete failing
input. -/
theorem c2_failure_fields_reset_witness :
    (calculate_symbolic_data "w+q" ["w"] [2]).expression = "w+q" ∧
    (calculate_symbolic_data "w+q" ["w"] [2]).numerical_value = 0 ∧
    (calculate_symbolic_data "w+q" ["w"] [2]).derivatives = [] ∧
    (calculate_symbolic_data "w+q" ["w"] [2]).numerical_derivatives = [] :=
  c2_failure_fields_reset "w+q" ["w"] [2] (by rw [calcWq_eval]; rfl)

/-- Claim C3 (code bug).  A formula that cannot be tokenized — the claim's
mismatched-parentheses case — makes `parse_expr` raise
`tokenize.TokenError`, which is neither `SympifyError` nor `ValueError`, so
the call fails in the catch-all branch with an "Unexpected error" message
instead of the malformed-formula ("Invalid formula syntax") category the
claim — and the code's own dead `except sp.SympifyError` handler —
intends. -/
theorem c3_parse_failure_category :
    (calculate_symbolic_data "(" ["x"] [1]).success = false ∧
    (calculate_symbolic_data "(" ["x"] [1]).error =
      some (.unexpected "EOF in multi-line statement") ∧
    ∀ m, (calculate_symbolic_data "(" ["x"] [1]).error ≠
      some (.invalidSyntax m) := by
  have hres := calc_err_assemble "(" ["x"] [1]
    (.tokenError "EOF in multi-line statement")
    (calcCore_err_parse "(" ["x"] [1] _ (by with_unfolding_all decide))
  rw [hres]
  refine ⟨rfl, rfl, ?_⟩
  intro m hm
  simp [failResult, excToMsg] at hm

/-- Claim C5.  A formula that parses but whose substituted expression still
has free symbols makes the call fail with the EvaluationError-kind
missing-variables message. -/
theorem c5_missing_variable_eval_error (f : String) (vars : List String)
    (vals : List ℚ) (expr : SExpr) (vsubs : List (String × ℚ))
    (hp : preprocessFormula f vars = .ok expr)
    (hs : buildValueSubs vars vals = .ok vsubs)
    (hfree : SExpr.freeSyms (SExpr.subsVals expr vsubs) ≠ []) :
    (calculate_symbolic_data f vars vals).success = false ∧
    (calculate_symbolic_data f vars vals).error =
      some (.evalError missingVarsMsg) := by
  rw [calc_err_assemble f vars vals _
    (calcCore_err_free f vars vals expr vsubs hp hs hfree)]
  exact ⟨rfl, rfl⟩

/-- Claim C5, witness: the claim's own instance, "x+y" with only "x" bound
(y stays free). -/
theorem c5_missing_variable_eval_error_witness :
    (calculate_symbolic_data "x+y" ["x"] [1]).success = false ∧
    (calculate_symbolic_data "x+y" ["x"] [1]).error =
      some (.evalError missingVarsMsg) :=
  c5_missing_variable_eval_error "x+y" ["x"] [1]
    (.add (.sym "x") (.sym "y")) [("x", 1)] (by with_unfolding_all decide)
    (by with_unfolding_all decide) (by with_unfolding_all decide)

/-- Claim C6, counterexample.  The claim says the derivatives key set
equals the declared variable list for every parseable formula; but when
evaluation fails after a successful parse — here "x" over ["x"] with an
empty value list — the returned derivatives mapping is empty, not keyed by
["x"]. -/
theorem c6_counterexample :
    preprocessFormula "x" ["x"] = .ok (SExpr.sym "x") ∧
    (calculate_symbolic_data "x" ["x"] []).derivatives = [] ∧
    ¬("x" ∈ (calculate_symbolic_data "x" ["x"] []).derivatives.map
        Prod.fst) := by
  have hres := calc_err_assemble "x" ["x"] [] (.indexError indexMsg)
    (calcCore_err_subs "x" ["x"] [] (.sym "x") _
      (by with_unfolding_all decide) (buildValueSubs_short ["x"] [] (by decide)))
  refine ⟨by with_unfolding_all decide, ?_, ?_⟩ <;> rw [hres] <;> simp [failResult]

/-- Claim C6, amended.  Whenever the call succeeds, the key set of the
returned derivatives mapping is exactly the set of declared variables; on
failure the mapping is reset to empty. -/
theorem c6_success_key_set (f : String) (vars : List String) (vals : List ℚ)
    (h : (calculate_symbolic_data f vars vals).success = true) :
    ∀ v, v ∈ (calculate_symbolic_data f vars vals).derivatives.map
      Prod.fst ↔ v ∈ vars := by
  intro v
  unfold calculate_symbolic_data at h ⊢
  cases hc : calcCore f vars vals with
  | error e => rw [hc] at h; simp [failResult] at h
  | ok d =>
      rw [hc] at h
      obtain ⟨expr, _, hd⟩ := calcCore_ok_derivs f vars vals d hc
      show v ∈ d.derivs.map Prod.fst ↔ v ∈ vars
      rw [hd]
      exact mem_keys_buildDerivs expr vars v

/-- Claim C6, witness for the amended statement on a successful call. -/
theorem c6_success_key_set_witness :
    (calculate_symbolic_data "x+y" ["x", "y"] [1, 2]).success = true ∧
    ("x" ∈ (calculate_symbolic_data "x+y" ["x", "y"] [1, 2]).derivatives.map
      Prod.fst ↔ "x" ∈ ["x", "y"]) :=
  ⟨by rw [calcXY_eval], c6_success_key_set "x+y" ["x", "y"] [1, 2]
    (by rw [calcXY_eval]) "x"⟩

/-- Claim C4.  Given that parsing, the substitution dictionary and the main
numeric value went through, and that every declared variable's derivative
reduces to a number: if some declared variable's derivative value has an
imaginary component of absolute value above 1e-10 the call fails with the
EvaluationError-kind message naming a variable whose derivative violates
the tolerance; and when a variable's derivative is within the tolerance
and the call succeeds, its reported numerical derivative is exactly the
real component of the reduced value. -/
theorem c4_imaginary_tolerance (f : String) (vars : List String)
    (vals : List ℚ) (expr : SExpr) (vsubs : List (String × ℚ)) (c0 : CC)
    (hp : preprocessFormula f vars = .ok expr)
    (hs : buildValueSubs vars vals = .ok vsubs)
    (hfree : SExpr.freeSyms (SExpr.subsVals expr vsubs) = [])
    (hev : evalfC (SExpr.subsVals expr vsubs) = some c0)
    (him : c0.im = 0)
    (hall : ∀ w ∈ vars,
      (derivCVal (buildDerivs expr vars) vsubs w).isSome = true)
    (v : String) (hv : v ∈ vars) (c : CC)
    (hc : derivCVal (buildDerivs expr vars) vsubs v = some c) :
    (|c.im| > tol →
      (calculate_symbolic_data f vars vals).success = false ∧
      ∃ w cw, w ∈ vars ∧
        derivCVal (buildDerivs expr vars) vsubs w = some cw ∧
        |cw.im| > tol ∧
        (calculate_symbolic_data f vars vals).error =
          some (.evalError (imagMsg w))) ∧
    (|c.im| ≤ tol →
      (calculate_symbolic_data f vars vals).success = true →
      (calculate_symbolic_data f vars vals).numerical_derivatives.lookup v =
        some c.re) := by
  have hbase := calcCore_at_loop f vars vals expr vsubs c0 hp hs hfree hev him
  constructor
  · intro hbad
    obtain ⟨w, cw, hw, hcw, hcwbad, hloop⟩ :=
      derivNumLoop_bad (buildDerivs expr vars) vsubs vars [] hall
        ⟨v, hv, c, hc, hbad⟩
    have hcore : calcCore f vars vals = .error (.valueError (imagMsg w)) := by
      rw [hbase]
      simp only [hloop]
    rw [calc_err_assemble f vars vals _ hcore]
    exact ⟨rfl, w, cw, hw, hcw, hcwbad, rfl⟩
  · intro _ hsucc
    cases hloop : derivNumLoop (buildDerivs expr vars) vsubs [] vars with
    | error e =>
        have hcore : calcCore f vars vals = .error e := by
          rw [hbase]
          simp only [hloop]
        rw [calc_err_assemble f vars vals e hcore] at hsucc
        simp [failResult] at hsucc
    | ok nd =>
        rw [calc_ok_assemble f vars vals expr vsubs c0 nd hp hs hfree hev him
          hloop] at hsucc ⊢
        exact (derivNumLoop_ok_lookup (buildDerivs expr vars) vsubs vars []
          nd hloop v c hc).1 hv

/-- Claim C4, witness: the formula `I*(x-2)` at x = 2 has value 0 (real)
but derivative I, whose imaginary part 1 exceeds 1e-10, so the call fails
naming x. -/
theorem c4_imaginary_tolerance_witness :
    (calculate_symbolic_data "I*(x-2)" ["x"] [2]).success = false ∧
    ∃ w cw, w ∈ ["x"] ∧
      derivCVal
        (buildDerivs (SExpr.mul .iK (.add (.sym "x") (.num (-2)))) ["x"])
        [("x", 2)] w = some cw ∧
      |cw.im| > tol ∧
      (calculate_symbolic_data "I*(x-2)" ["x"] [2]).error =
        some (.evalError (imagMsg w)) :=
  (c4_imaginary_tolerance "I*(x-2)" ["x"] [2]
    (SExpr.mul .iK (.add (.sym "x") (.num (-2)))) [("x", 2)] ⟨0, 0⟩
    (by with_unfolding_all decide) (by with_unfolding_all decide)
    (by with_unfolding_all decide) (by with_unfolding_all decide) rfl
    (by with_unfolding_all decide) "x" (by decide) ⟨0, 1⟩
    (by with_unfolding_all decide)).1 (by with_unfolding_all decide)

/-- Claim C7.  `generate_latex_data("x+y", ["x","y"])` succeeds, its
"string" field is exactly `sqrt(σ_x**2 + σ_y**2)` (both partial
derivatives are 1, each multiplied by its uncertainty symbol, squared,
summed and square-rooted), and its "latex" field is non-empty. -/
theorem c7_uncertainty_formula :
    (generate_latex_data "x+y" ["x", "y"]).success = true ∧
    (generate_latex_data "x+y" ["x", "y"]).string =
      "sqrt(σ_x**2 + σ_y**2)" ∧
    (generate_latex_data "x+y" ["x", "y"]).latex ≠ "" := by
  have hres := gen_ok_assemble "x+y" ["x", "y"] "sqrt(σ_x**2 + σ_y**2)"
    "\\sqrt\x7b\\left(\\sigma_\x7bx\x7d\\right)^\x7b2\x7d + \\left(\\sigma_\x7by\x7d\\right)^\x7b2\x7d\x7d"
    (by with_unfolding_all decide)
  rw [hres]
  exact ⟨rfl, rfl, by decide⟩

/-- Claim C8.  Implicit multiplication is applied during parsing:
`calculate_symbolic_data("2x", ["x"], [3.0])` succeeds with
numerical_value 6. -/
theorem c8_implicit_multiplication :
    (calculate_symbolic_data "2x" ["x"] [3]).success = true ∧
    (calculate_symbolic_data "2x" ["x"] [3]).numerical_value = 6 := by
  have hres := calc_ok_assemble "2x" ["x"] [3]
    (.mul (.num 2) (.sym "x")) [("x", 3)] ⟨6, 0⟩ [("x", 2)]
    (by with_unfolding_all decide) (by with_unfolding_all decide)
    (by with_unfolding_all decide) (by with_unfolding_all decide) rfl
    (by with_unfolding_all decide)
  rw [hres]
  exact ⟨rfl, rfl⟩

/-- Claim C9.  "sen" is bound to the same sympy operator as "sin", so for
every value v the two calls parse to the same expression and return equal
success flags, equal derivative dictionaries, equal numerical values and
equal numerical derivatives. -/
theorem c9_alias_equivalence (v : ℚ) :
    (calculate_symbolic_data "sen(x)" ["x"] [v]).numerical_value =
      (calculate_symbolic_data "sin(x)" ["x"] [v]).numerical_value ∧
    (calculate_symbolic_data "sen(x)" ["x"] [v]).numerical_derivatives =
      (calculate_symbolic_data "sin(x)" ["x"] [v]).numerical_derivatives ∧
    (calculate_symbolic_data "sen(x)" ["x"] [v]).derivatives =
      (calculate_symbolic_data "sin(x)" ["x"] [v]).derivatives ∧
    (calculate_symbolic_data "sen(x)" ["x"] [v]).success =
      (calculate_symbolic_data "sin(x)" ["x"] [v]).success := by
  have hpe : preprocessFormula "sen(x)" ["x"] =
      preprocessFormula "sin(x)" ["x"] := by
    with_unfolding_all rfl
  have hcc : calcCore "sen(x)" ["x"] [v] = calcCore "sin(x)" ["x"] [v] := by
    unfold calcCore
    rw [hpe]
  unfold calculate_symbolic_data
  rw [hcc]
  cases calcCore "sin(x)" ["x"] [v] with
  | ok d => exact ⟨rfl, rfl, rfl, rfl⟩
  | error e => exact ⟨rfl, rfl, rfl, rfl⟩

/-- Claim C9, witness: the alias equivalence instantiated at v = 1. -/
theorem c9_alias_equivalence_witness :
    (calculate_symbolic_data "sen(x)" ["x"] [1]).numerical_value =
      (calculate_symbolic_data "sin(x)" ["x"] [1]).numerical_value ∧
    (calculate_symbolic_data "sen(x)" ["x"] [1]).numerical_derivatives =
      (calculate_symbolic_data "sin(x)" ["x"] [1]).numerical_derivatives ∧
    (calculate_symbolic_data "sen(x)" ["x"] [1]).derivatives =
      (calculate_symbolic_data "sin(x)" ["x"] [1]).derivatives ∧
    (calculate_symbolic_data "sen(x)" ["x"] [1]).success =
      (calculate_symbolic_data "sin(x)" ["x"] [1]).success :=
  c9_alias_equivalence 1

/-- Claim C10.  When the values list is shorter than the variables list
(and the formula parses), the call does not raise: it fails with the
catch-all "Unexpected error" category — the `IndexError` from the
substitution comprehension — not the EvaluationError category. -/
theorem c10_short_values_unexpected (f : String) (vars : List String)
    (vals : List ℚ) (expr : SExpr)
    (hp : preprocessFormula f vars = .ok expr)
    (hlen : vals.length < vars.length) :
    (calculate_symbolic_data f vars vals).success = false ∧
    (calculate_symbolic_data f vars vals).error =
      some (.unexpected indexMsg) ∧
    ∀ m, (calculate_symbolic_data f vars vals).error ≠
      some (.evalError m) := by
  have hb := buildValueSubs_short vars vals hlen
  rw [calc_err_assemble f vars vals _
    (calcCore_err_subs f vars vals expr _ hp hb)]
  refine ⟨rfl, rfl, ?_⟩
  intro m hm
  simp [failResult, excToMsg] at hm

/-- Claim C10, witness at a concrete short-values call. -/
theorem c10_short_values_unexpected_witness :
    (calculate_symbolic_data "y" ["y"] []).success = false ∧
    (calculate_symbolic_data "y" ["y"] []).error =
      some (.unexpected indexMsg) ∧
    ∀ m, (calculate_symbolic_data "y" ["y"] []).error ≠
      some (.evalError m) :=
  c10_short_values_unexpected "y" ["y"] [] (.sym "y")
    (by with_unfolding_all decide) (by decide)

end Anafis
